import Mathlib

/-!
Verification of the metrics-aggregation and report-content decision engine of
the auto-performance-report repository. The definitions below are a shallow
embedding of `src/scripts/confluenceReportGenerator.js` (restart-timing
classifier, root-cause selector, finding generator, summary observations) and
`src/fetchers/fetchdatadogmetrics.js` (per-resource aggregation and the
endpoint-table rate computation). JavaScript numbers are modelled as `Int`
where the code only counts and compares whole values (restart counters,
timestamps, request/error counts) and as `ℚ` where the code does arithmetic on
measurements (latencies, percentages, rates). Absent / nullable JSON fields are
modelled with `Option`.
-/

/-- Overall severity of the report, ordered good < warning < critical. -/
inductive Status where
  | good
  | warning
  | critical
deriving DecidableEq, Repr

/-- Numeric rank of a status under the ordering good < warning < critical. -/
def Status.rank : Status → Nat
  | Status.good => 0
  | Status.warning => 1
  | Status.critical => 2

/-- A value of the JS object `restartTiming[podName]` built by
`analyzeRestartTiming`: the formatted label and the during-window flag. -/
structure TimingEntry where
  exactTime : String
  duringWindow : Bool
deriving DecidableEq, Repr

/-- One series of the restarts time series block. `podName` models the result
of `series.expression.match(/pod_name:([\w-]+)/)` (`none` when the expression
has no pod-name token, in which case the code skips the series). Points are
`[timestamp, value]` pairs; an absent pointlist is modelled as the empty list
(both fail the `pointlist && pointlist.length > 0` guard). -/
structure RestartSeries where
  podName : Option String
  pointlist : List (Int × Int)
deriving DecidableEq, Repr

/-- The `timeSeries.restarts` block: its series array (absent vs present is
significant for the JS truthiness guard) and the window bounds, as epoch
values of `new Date(from_date)` / `new Date(to_date)`. -/
structure RestartsBlock where
  series : Option (List RestartSeries)
  from_date : Int
  to_date : Int
deriving DecidableEq, Repr

/-- The `podMetrics.timeSeries` object. -/
structure TimeSeriesData where
  restarts : Option RestartsBlock
deriving DecidableEq, Repr

/-- One entry of `podMetrics.podMetrics`: only the fields the analysed
functions read. An absent restart count is modelled as 0 (the code guards with
`pod.restarts && pod.restarts > 0` and sums with `pod.restarts || 0`). -/
structure PodMetric where
  podName : String
  restarts : Int
deriving DecidableEq, Repr

/-- The `podMetrics.summary` percentages. The JS guard is
`summary && summary.avgCpuPct !== undefined`; a summary passing it is
modelled as `some PodSummary`. -/
structure PodSummary where
  avgCpuPct : ℚ
  maxCpuPct : ℚ
  avgMemoryPct : ℚ
  maxMemoryPct : ℚ
deriving DecidableEq, Repr

/-- One entry of `podMetrics.containerMetrics.memory`, as read by
`getMainRestartCause`. -/
structure MemoryMetric where
  podName : String
  maxMemory : ℚ
deriving DecidableEq, Repr

/-- The `podMetrics.containerMetrics` object. -/
structure ContainerMetrics where
  memory : Option (List MemoryMetric)
deriving DecidableEq, Repr

/-- The top-level `data.podMetrics` object. -/
structure PodMetricsData where
  podMetrics : Option (List PodMetric)
  summary : Option PodSummary
  timeSeries : Option TimeSeriesData
  containerMetrics : Option ContainerMetrics
deriving DecidableEq, Repr

/-- One entry of `errorMetrics.logSummary.topMessages`. -/
structure TopMessage where
  message : String
  count : Int
deriving DecidableEq, Repr

/-- The `errorMetrics.logSummary` object. -/
structure LogSummary where
  totalLogErrors : Int
  topMessages : Option (List TopMessage)
deriving DecidableEq, Repr

/-- The top-level `data.errorMetrics` object. -/
structure ErrorMetrics where
  logSummary : Option LogSummary
deriving DecidableEq, Repr

/-- One row of `data.metrics`. In the JSON the latency and error-rate fields
are strings such as "1500 ms"; the code reads them through `parseFloat` /
`parseInt`, so they are modelled as the parsed numbers directly. -/
structure Metric where
  resource_name : String
  requests : Int
  p95_latency : ℚ
  errors : Int
  error_rate : ℚ
deriving DecidableEq, Repr

/-- The report time range, as the epoch values of `new Date(timeRange.from)` /
`new Date(timeRange.to)` in milliseconds. -/
structure TimeRange where
  fromMs : Int
  toMs : Int
deriving DecidableEq, Repr

/-- The full payload consumed by `analyzePerformanceData`. -/
structure ReportData where
  metrics : List Metric
  timeRange : Option TimeRange
  podMetrics : Option PodMetricsData
  errorMetrics : Option ErrorMetrics
deriving DecidableEq, Repr

/-- One row of `data.endpointMetrics` as read by
`generateSummaryObservations`: there the latency and error-rate fields are
numbers, compared directly. -/
structure Endpoint where
  resource_name : String
  requests : Int
  p95_latency : ℚ
  errors : Int
  error_rate : ℚ
deriving DecidableEq, Repr

/-- The payload consumed by `generateSummaryObservations`. -/
structure SummaryData where
  endpointMetrics : List Endpoint
  podMetrics : Option PodMetricsData
  errorMetrics : Option ErrorMetrics
  timeRange : Option TimeRange
deriving DecidableEq, Repr

/-- Models `new Date(t).toLocaleString('en-US', ...)` with seconds, in the
America/New_York time zone, as used for during-window restart labels. The
rendered text is locale data external to the program; it is modelled as the
decimal epoch value. No claim depends on the digits, only on which timestamp
is formatted and on the absence of the substring "Before". -/
def fmtDateTime (t : Int) : String := toString t

/-- Models the shorter `toLocaleString` rendering (no seconds) used for the
window-start time in "Before ..." labels; modelled as the decimal epoch
value, as for `fmtDateTime`. -/
def fmtDateShort (t : Int) : String := toString t

/-- Models `Number.prototype.toFixed(dp)`: the value rendered with `dp`
decimal places. Modelled as the decimal rendering of the half-up-rounded
scaled value; no claim depends on the produced digit string. -/
def qToFixed (dp : Nat) (q : ℚ) : String := toString (round (q * (10 : ℚ) ^ dp))

/-- Models `String.prototype.includes(pat)` for a non-empty pattern: true
exactly when `pat` occurs as a substring. -/
def jsIncludes (s pat : String) : Bool := (s.splitOn pat).length > 1

/-- One iteration of the scan loop of `analyzeRestartTiming`
(confluenceReportGenerator.js lines 746-754). The accumulator is
`(maxValue, latestRestartTime)`; a point whose value exceeds the running
maximum records its timestamp and raises the maximum. -/
def scanStep (acc : Int × Option Int) (pt : Int × Int) : Int × Option Int :=
  if pt.2 > acc.1 then (pt.2, some pt.1) else acc

/-- Per-series classification of `analyzeRestartTiming` (lines 733-786):
`startValue` is the first point's value, the remaining points are scanned with
`scanStep`, and the branches mirror the JS
`if (latestRestartTime) ... else if (startValue > 0) ...` chain. The JS guard
`if (latestRestartTime)` is a truthiness test: it fails both for `null` (no
increase seen) and for the number 0 (a last increase whose timestamp is
exactly 0), falling through to the `startValue > 0` branch in both cases. -/
def classifySeries (monitoringStart : Int) (s : RestartSeries) : Option (String × TimingEntry) :=
  match s.podName with
  | none => none
  | some name =>
    match s.pointlist with
    | [] => none
    | p0 :: rest =>
      let startValue := p0.2
      let scan := rest.foldl scanStep (startValue, none)
      let beforeBranch : Option (String × TimingEntry) :=
        if startValue > 0 then
          some (name, ⟨"Before " ++ fmtDateShort monitoringStart ++ " EST", false⟩)
        else none
      match scan.2 with
      | some t =>
        if t ≠ 0 then some (name, ⟨fmtDateTime t ++ " EST", true⟩)
        else beforeBranch
      | none => beforeBranch

/-- Embeds `analyzeRestartTiming` (lines 724-790). The JS result object maps
pod names to timing entries; it is modelled as an association list built by
prepending, so that `List.lookup` sees the most recent assignment, matching JS
property overwrite. -/
def analyzeRestartTiming (pmd : PodMetricsData) : List (String × TimingEntry) :=
  match pmd.timeSeries with
  | none => []
  | some ts =>
    match ts.restarts with
    | none => []
    | some blk =>
      match blk.series with
      | none => []
      | some serList =>
        serList.foldl (fun acc s =>
          match classifySeries blk.from_date s with
          | some e => e :: acc
          | none => acc) []

/-- The restart-timing map of a full payload: `analyzeRestartTiming` applied
to `data.podMetrics` when present. -/
def restartTimingOf (d : ReportData) : List (String × TimingEntry) :=
  match d.podMetrics with
  | none => []
  | some pm => analyzeRestartTiming pm

/-- The filter shared verbatim by both restart blocks of
`analyzePerformanceData` (lines 965-969 and 1114-1119): pods with a positive
restart count (`pod.restarts && pod.restarts > 0`) whose timing entry exists
and does not have `duringWindow === false`
(`podTiming && podTiming.duringWindow !== false`). When `data.podMetrics` or
its `podMetrics` array is absent the enclosing JS block is skipped, which
coincides with the empty result here. -/
def podsWithRestartsOf (d : ReportData) : List PodMetric :=
  match d.podMetrics with
  | none => []
  | some pm =>
    match pm.podMetrics with
    | none => []
    | some pods =>
      pods.filter (fun pod =>
        decide (pod.restarts > 0) &&
          (match (analyzeRestartTiming pm).lookup pod.podName with
           | some t => t.duringWindow != false
           | none => false))

/-- The restart total both restart blocks compute from the filtered pods:
`reduce((sum, pod) => sum + (pod.restarts || 0), 0)`. -/
def totalWindowRestarts (d : ReportData) : Int :=
  (podsWithRestartsOf d).foldl (fun s p => s + p.restarts) 0

/-- The chained optional read `errorMetrics?.logSummary?.totalLogErrors`
with an absent chain contributing 0 (JS `undefined > 0` is false, as is
`0 > 0`). -/
def totalLogErrorsOf (d : ReportData) : Int :=
  match d.errorMetrics with
  | none => 0
  | some em =>
    match em.logSummary with
    | none => 0
    | some ls => ls.totalLogErrors

/-- The total over a pod list used by `getMainRestartCause` (line 793):
`reduce((sum, pod) => sum + pod.restarts, 0)`. -/
def totalRestartsListOf (pods : List PodMetric) : Int :=
  pods.foldl (fun s p => s + p.restarts) 0

/-- Condition of the first root-cause rule (lines 795-799): some restarted pod
whose `containerMetrics.memory` entry reports `maxMemory > 90`. -/
def hasHighMemoryCond (podsWithRestarts : List PodMetric) (allData : ReportData) : Bool :=
  podsWithRestarts.any (fun pod =>
    match allData.podMetrics with
    | none => false
    | some pm =>
      match pm.containerMetrics with
      | none => false
      | some cm =>
        match cm.memory with
        | none => false
        | some mems =>
          match mems.find? (fun m => m.podName == pod.podName) with
          | some m => decide (m.maxMemory > 90)
          | none => false)

/-- Embeds `getMainRestartCause` (lines 792-814): a five-way if chain over the
restarted pods and the correlated signals. -/
def getMainRestartCause (podsWithRestarts : List PodMetric) (allData : ReportData) : String :=
  if hasHighMemoryCond podsWithRestarts allData then
    "High memory usage detected - likely OOM (Out of Memory) kills"
  else if decide (totalLogErrorsOf allData > 0) && decide (totalRestartsListOf podsWithRestarts > 1) then
    "Correlated with " ++ toString (totalLogErrorsOf allData) ++
      " application errors - likely application-level failures"
  else if decide (totalRestartsListOf podsWithRestarts ≥ 3) then
    "Frequent restarts suggest health check failures or application instability"
  else if decide (podsWithRestarts.length > 1) then
    "Multiple pods affected - indicates service-level instability"
  else
    "Monitor for patterns - may be related to deployment updates or transient issues"

/-- The five root-cause rules as the claim words them: a priority list of
(condition, message) pairs in which the first matching rule wins and later
rules are never evaluated. Written from the claim, to be compared with
`getMainRestartCause`. -/
def causeRules (pods : List PodMetric) (d : ReportData) : List (Bool × String) :=
  [ (hasHighMemoryCond pods d,
      "High memory usage detected - likely OOM (Out of Memory) kills"),
    (decide (totalLogErrorsOf d > 0) && decide (totalRestartsListOf pods > 1),
      "Correlated with " ++ toString (totalLogErrorsOf d) ++
        " application errors - likely application-level failures"),
    (decide (totalRestartsListOf pods ≥ 3),
      "Frequent restarts suggest health check failures or application instability"),
    (decide (pods.length > 1),
      "Multiple pods affected - indicates service-level instability"),
    (true,
      "Monitor for patterns - may be related to deployment updates or transient issues") ]

/-- First-match evaluation of a rule table: the message of the first rule
whose condition holds (empty-table fallback is the empty string; the tables
used here end with a catch-all). -/
def firstMatchingMessage : List (Bool × String) → String
  | [] => ""
  | (b, msg) :: rest => if b then msg else firstMatchingMessage rest

/-- The mutable result triple of `analyzePerformanceData`: the findings and
recommendations arrays and the overall status. -/
structure AnalysisState where
  findings : List String
  recommendations : List String
  overallStatus : Status
deriving DecidableEq, Repr

/-- The state at the top of `analyzePerformanceData` (lines 955-957). -/
def initState : AnalysisState := ⟨[], [], Status.good⟩

/-- Step 1 of `analyzePerformanceData` (lines 961-976): the early pod-restart
check. Pushes one finding and assigns critical for a total of at least 5,
warning otherwise. -/
def stepRestartCheck (d : ReportData) (st : AnalysisState) : AnalysisState :=
  let podsWith := podsWithRestartsOf d
  let totalRestarts := totalWindowRestarts d
  if totalRestarts > 0 then
    { findings := st.findings ++
        ["<strong>Pod Restarts:</strong> " ++ toString totalRestarts ++
          " total restart(s) across " ++ toString podsWith.length ++ " pod(s)"],
      recommendations := st.recommendations,
      overallStatus := if totalRestarts ≥ 5 then Status.critical else Status.warning }
  else st

/-- Step 2 (lines 978-996): high p95 latency analysis. Line 995 assigns
`overallStatus = 'warning'` unconditionally, without the `=== 'good'` guard
every other status write in this function uses. -/
def stepLatency (d : ReportData) (st : AnalysisState) : AnalysisState :=
  let highLatencyEndpoints := d.metrics.filter (fun m => m.p95_latency > 1000)
  if highLatencyEndpoints.length > 0 then
    let p95Values := String.intercalate ", "
      (highLatencyEndpoints.map (fun ep => qToFixed 2 (ep.p95_latency / 1000) ++ "s"))
    let endpointNames := String.intercalate ", "
      (highLatencyEndpoints.map (fun ep => "<strong>" ++ ep.resource_name ++ "</strong>"))
    { findings := st.findings ++
        ["<strong>High P95 Latency Detected:</strong> " ++
          toString highLatencyEndpoints.length ++ " endpoint(s) with P95 > 1s (p95: " ++
          p95Values ++ "). Endpoints: " ++ endpointNames],
      recommendations := st.recommendations ++
        ["Investigate slow endpoints for database query optimization, external API calls, or inefficient algorithms"],
      overallStatus := Status.warning }
  else st

/-- Step 3 (lines 998-1017): endpoint error analysis. -/
def stepEndpointErrors (d : ReportData) (st : AnalysisState) : AnalysisState :=
  let errorEndpoints := d.metrics.filter (fun m => m.errors > 0)
  if errorEndpoints.length > 0 then
    let totalEndpointErrors := errorEndpoints.foldl (fun s m => s + m.errors) 0
    let st1 := { st with findings := st.findings ++
      ["<strong>Errors Found:</strong> " ++ toString totalEndpointErrors ++
        " total errors (" ++ toString totalEndpointErrors ++ " endpoint errors, 0 trace errors)"] }
    let errorRateEndpoints := errorEndpoints.filter (fun m => m.error_rate > 0)
    let st2 :=
      match errorRateEndpoints with
      | [] => st1
      | h :: t =>
        let worstErrorEndpoint :=
          t.foldl (fun (worst current : Metric) =>
            if current.error_rate > worst.error_rate then current else worst) h
        { st1 with findings := st1.findings ++
          ["<strong>Most Common Error:</strong> " ++ qToFixed 2 worstErrorEndpoint.error_rate ++
            "% error rate on " ++ worstErrorEndpoint.resource_name ++ " endpoint"] }
    { st2 with overallStatus :=
        if st2.overallStatus = Status.good then Status.warning else st2.overallStatus }
  else st

/-- Step 4 (lines 1019-1029): application log errors. -/
def stepLogErrors (d : ReportData) (st : AnalysisState) : AnalysisState :=
  match d.errorMetrics with
  | none => st
  | some em =>
    match em.logSummary with
    | none => st
    | some ls =>
      if ls.totalLogErrors > 0 then
        let st1 := { st with findings := st.findings ++
          ["<strong>Application Errors:</strong> " ++ toString ls.totalLogErrors ++
            " log errors detected during monitoring window"] }
        let st2 :=
          match ls.topMessages with
          | some (m :: _) =>
            if m.message ≠ "No message..." then
              { st1 with findings := st1.findings ++
                ["<strong>Most Common Log Error:</strong> \"" ++ m.message ++
                  "\" occurred " ++ toString m.count ++ " times"] }
            else st1
          | _ => st1
        { st2 with overallStatus :=
            if st2.overallStatus = Status.good then Status.warning else st2.overallStatus }
      else st

/-- Step 5 (lines 1031-1040): throughput. Pushes at most one informational
finding and touches neither the recommendations nor the status. Rational
division models the JS float division; no claim depends on the rendered
digits. -/
def stepThroughput (d : ReportData) (st : AnalysisState) : AnalysisState :=
  if d.metrics.length > 0 then
    let totalRequests := d.metrics.foldl (fun s m => s + m.requests) 0
    if totalRequests > 0 then
      let timeRangeMinutes : ℚ :=
        match d.timeRange with
        | some tr => ((tr.toMs - tr.fromMs : Int) : ℚ) / (1000 * 60)
        | none => 30
      let avgRate := qToFixed 2 ((totalRequests : ℚ) / timeRangeMinutes)
      { st with findings := st.findings ++
        ["<strong>Throughput:</strong> " ++ toString totalRequests ++
          " total requests over " ++ qToFixed 0 timeRangeMinutes ++
          " minutes (avg: " ++ avgRate ++ " req/min)"] }
    else st
  else st

/-- Step 6 (lines 1090-1109): resource utilization. The JS guard is
`data.podMetrics && data.podMetrics.summary && summary.avgCpuPct !== undefined`;
a summary passing it is modelled as `some PodSummary`. -/
def stepResources (d : ReportData) (st : AnalysisState) : AnalysisState :=
  match d.podMetrics with
  | none => st
  | some pm =>
    match pm.summary with
    | none => st
    | some s =>
      let st1 := { st with findings := st.findings ++
        ["<strong>Resource Utilization:</strong> CPU: " ++ qToFixed 2 s.avgCpuPct ++
          "% avg, " ++ qToFixed 2 s.maxCpuPct ++ "% peak | Memory: " ++
          qToFixed 2 s.avgMemoryPct ++ "% avg, " ++ qToFixed 2 s.maxMemoryPct ++ "% peak"] }
      let st2 :=
        if s.maxCpuPct > 80 then
          { st1 with
              recommendations := st1.recommendations ++
                ["CPU usage peaked above 80% - consider increasing CPU limits or horizontal scaling"]
              overallStatus :=
                if st1.overallStatus = Status.good then Status.warning else st1.overallStatus }
        else st1
      if s.maxMemoryPct > 80 then
        { st2 with
            recommendations := st2.recommendations ++
              ["Memory usage peaked above 80% - monitor for potential memory pressure and consider increasing limits"]
            overallStatus :=
              if st2.overallStatus = Status.good then Status.warning else st2.overallStatus }
      else st2

/-- Step 7 (lines 1111-1157): detailed pod-restart analysis. Recomputes the
same during-window filter as step 1, lists per-pod lines, appends the main
cause from `getMainRestartCause`, restart-specific recommendations, and
escalates the status from the total (5 or more: critical; 2 or more: at least
warning). -/
def stepRestartDetails (d : ReportData) (st : AnalysisState) : AnalysisState :=
  let podsWith := podsWithRestartsOf d
  let totalRestarts := totalWindowRestarts d
  if totalRestarts > 0 then
    let st1 := { st with findings := st.findings ++
      ["<strong>Pod Restarts Detected:</strong> " ++ toString totalRestarts ++
        " restart(s) during monitoring window across " ++ toString podsWith.length ++ " pod(s)"] }
    let timing := restartTimingOf d
    let st2 := podsWith.foldl (fun acc pod =>
      let plural : String := if pod.restarts > 1 then "s" else ""
      let line :=
        match timing.lookup pod.podName with
        | some t =>
          if (t.exactTime != "") && t.duringWindow then
            "&nbsp;&nbsp;• " ++ pod.podName ++ " - " ++ toString pod.restarts ++
              " restart" ++ plural ++ " (At: " ++ t.exactTime ++ ")"
          else
            "&nbsp;&nbsp;• " ++ pod.podName ++ " - " ++ toString pod.restarts ++
              " restart" ++ plural ++ " during monitoring period"
        | none =>
          "&nbsp;&nbsp;• " ++ pod.podName ++ " - " ++ toString pod.restarts ++
            " restart" ++ plural ++ " during monitoring period"
      { acc with findings := acc.findings ++ [line] }) st1
    let mainCause := getMainRestartCause podsWith d
    let st3 :=
      if mainCause ≠ "" then { st2 with findings := st2.findings ++ ["&nbsp;&nbsp;• " ++ mainCause] }
      else st2
    let st4 :=
      if totalLogErrorsOf d > 0 then
        { st3 with recommendations := st3.recommendations ++
          ["<strong>Application errors causing restarts:</strong> Review application logs and implement proper error handling"] }
      else st3
    let st5 :=
      if podsWith.any (fun pod => decide (pod.restarts ≥ 3)) then
        { st4 with recommendations := st4.recommendations ++
          ["<strong>Frequent restarts detected:</strong> Check health check configurations and resource limits"] }
      else st4
    if totalRestarts ≥ 5 then
      { st5 with overallStatus := Status.critical }
    else if totalRestarts ≥ 2 then
      { st5 with overallStatus :=
          if st5.overallStatus = Status.good then Status.warning else st5.overallStatus }
    else st5
  else st

/-- Step 8 (lines 1159-1164): affirmative finding and generic recommendations
when the status is still good. -/
def stepGoodDefaults (st : AnalysisState) : AnalysisState :=
  if st.overallStatus = Status.good then
    { findings := st.findings ++ ["<strong>✅ All metrics within acceptable thresholds</strong>"],
      recommendations := st.recommendations ++
        ["Continue monitoring performance trends over time",
         "Establish this test as a baseline for future regression testing"],
      overallStatus := st.overallStatus }
  else st

/-- Embeds `analyzePerformanceData` (lines 954-1167) as the composition of its
eight processing steps over the initial good state. The `now` parameter models
the ambient wall clock (`Date.now()` and the zero-argument `new Date()`) that
JavaScript code could read; the body never consults it — every date the
function manipulates comes from the input payload. -/
def analyzePerformanceData (now : Int) (d : ReportData) : AnalysisState :=
  stepGoodDefaults
    (stepRestartDetails d
      (stepResources d
        (stepThroughput d
          (stepLogErrors d
            (stepEndpointErrors d
              (stepLatency d
                (stepRestartCheck d initState)))))))

/-- The chained optional read `errorMetrics?.logSummary?.totalLogErrors` on a
summary payload, with an absent chain contributing 0. -/
def totalLogErrorsOfS (d : SummaryData) : Int :=
  match d.errorMetrics with
  | none => 0
  | some em =>
    match em.logSummary with
    | none => 0
    | some ls => ls.totalLogErrors

/-- Embeds the FIRST textual body of `generateSummaryObservations`
(confluenceReportGenerator.js lines 590-655). Its during-window filter keeps a
restarted pod when the pod has no timing entry, when the entry's label is the
empty string, or when the label does not contain the substring "Before"
(`!podTiming || !podTiming.exactTime || !podTiming.exactTime.includes('Before')`). -/
def generateSummaryObservationsV1 (data : SummaryData) : List String :=
  let counts : Int × Int :=
    match data.podMetrics with
    | none => (0, 0)
    | some pm =>
      match pm.podMetrics with
      | none => (0, 0)
      | some pods =>
        let restartTiming := analyzeRestartTiming pm
        let validRestarts := pods.filter (fun (pod : PodMetric) =>
          decide (pod.restarts > 0) &&
            (match restartTiming.lookup pod.podName with
             | none => true
             | some t => (t.exactTime == "") || !(jsIncludes t.exactTime "Before")))
        (validRestarts.foldl (fun s pod => s + pod.restarts) (0 : Int), (validRestarts.length : Int))
  let windowRestarts := counts.1
  let restartedPods := counts.2
  let obs1 : List String :=
    if windowRestarts > 0 then
      ["Pod Restarts: " ++ toString windowRestarts ++ " restart(s) across " ++
        toString restartedPods ++ " pod(s) during monitoring window"]
    else []
  let obs2 :=
    if data.endpointMetrics.length > 0 then
      match data.endpointMetrics.filter (fun e => e.p95_latency > 1000) with
      | [] => obs1
      | h :: t =>
        let worstEndpoint :=
          t.foldl (fun (worst current : Endpoint) =>
            if current.p95_latency > worst.p95_latency then current else worst) h
        obs1 ++ ["Performance Issues: High P95 latency (" ++
          qToFixed 1 (worstEndpoint.p95_latency / 1000) ++ "+ seconds) on " ++
          worstEndpoint.resource_name ++ " endpoint"]
    else obs1
  let obs3 :=
    if data.endpointMetrics.length > 0 then
      match data.endpointMetrics.filter (fun e => e.error_rate > 0) with
      | [] => obs2
      | h :: t =>
        let worstErrorEndpoint :=
          t.foldl (fun (worst current : Endpoint) =>
            if current.error_rate > worst.error_rate then current else worst) h
        obs2 ++ ["Error Rate: " ++ qToFixed 2 worstErrorEndpoint.error_rate ++
          "% error rate on " ++ worstErrorEndpoint.resource_name ++ " endpoint with " ++
          toString worstErrorEndpoint.errors ++ " errors"]
    else obs2
  let obs4 :=
    if totalLogErrorsOfS data > 0 then
      obs3 ++ ["Application Errors: " ++ toString (totalLogErrorsOfS data) ++
        " log errors detected during monitoring window"]
    else obs3
  if data.endpointMetrics.length > 0 then
    let totalRequests := data.endpointMetrics.foldl (fun s e => s + e.requests) 0
    if totalRequests > 0 then
      let timeRangeMinutes : ℚ :=
        match data.timeRange with
        | some tr => ((tr.toMs - tr.fromMs : Int) : ℚ) / (1000 * 60)
        | none => 30
      obs4 ++ ["Throughput: " ++ toString totalRequests ++ " total requests over " ++
        qToFixed 0 timeRangeMinutes ++ " minutes (avg: " ++
        qToFixed 2 ((totalRequests : ℚ) / timeRangeMinutes) ++ " req/min)"]
    else obs4
  else obs4

/-- Embeds the SECOND textual body of `generateSummaryObservations`
(lines 657-722, the one JavaScript actually binds, since the later definition
shadows the earlier). Identical to the first body except for the during-window
filter, which requires a timing entry whose `duringWindow` flag is not `false`
(`podTiming && podTiming.duringWindow !== false`). -/
def generateSummaryObservationsV2 (data : SummaryData) : List String :=
  let counts : Int × Int :=
    match data.podMetrics with
    | none => (0, 0)
    | some pm =>
      match pm.podMetrics with
      | none => (0, 0)
      | some pods =>
        let restartTiming := analyzeRestartTiming pm
        let validRestarts := pods.filter (fun (pod : PodMetric) =>
          decide (pod.restarts > 0) &&
            (match restartTiming.lookup pod.podName with
             | none => false
             | some t => t.duringWindow != false))
        (validRestarts.foldl (fun s pod => s + pod.restarts) (0 : Int), (validRestarts.length : Int))
  let windowRestarts := counts.1
  let restartedPods := counts.2
  let obs1 : List String :=
    if windowRestarts > 0 then
      ["Pod Restarts: " ++ toString windowRestarts ++ " restart(s) across " ++
        toString restartedPods ++ " pod(s) during monitoring window"]
    else []
  let obs2 :=
    if data.endpointMetrics.length > 0 then
      match data.endpointMetrics.filter (fun e => e.p95_latency > 1000) with
      | [] => obs1
      | h :: t =>
        let worstEndpoint :=
          t.foldl (fun (worst current : Endpoint) =>
            if current.p95_latency > worst.p95_latency then current else worst) h
        obs1 ++ ["Performance Issues: High P95 latency (" ++
          qToFixed 1 (worstEndpoint.p95_latency / 1000) ++ "+ seconds) on " ++
          worstEndpoint.resource_name ++ " endpoint"]
    else obs1
  let obs3 :=
    if data.endpointMetrics.length > 0 then
      match data.endpointMetrics.filter (fun e => e.error_rate > 0) with
      | [] => obs2
      | h :: t =>
        let worstErrorEndpoint :=
          t.foldl (fun (worst current : Endpoint) =>
            if current.error_rate > worst.error_rate then current else worst) h
        obs2 ++ ["Error Rate: " ++ qToFixed 2 worstErrorEndpoint.error_rate ++
          "% error rate on " ++ worstErrorEndpoint.resource_name ++ " endpoint with " ++
          toString worstErrorEndpoint.errors ++ " errors"]
    else obs2
  let obs4 :=
    if totalLogErrorsOfS data > 0 then
      obs3 ++ ["Application Errors: " ++ toString (totalLogErrorsOfS data) ++
        " log errors detected during monitoring window"]
    else obs3
  if data.endpointMetrics.length > 0 then
    let totalRequests := data.endpointMetrics.foldl (fun s e => s + e.requests) 0
    if totalRequests > 0 then
      let timeRangeMinutes : ℚ :=
        match data.timeRange with
        | some tr => ((tr.toMs - tr.fromMs : Int) : ℚ) / (1000 * 60)
        | none => 30
      obs4 ++ ["Throughput: " ++ toString totalRequests ++ " total requests over " ++
        qToFixed 0 timeRangeMinutes ++ " minutes (avg: " ++
        qToFixed 2 ((totalRequests : ℚ) / timeRangeMinutes) ++ " req/min)"]
    else obs4
  else obs4

/-- One series of a Datadog query response as consumed by `extractByResource`
(fetchdatadogmetrics.js lines 142-185). `resourceName` models the result of
the `resource_name:([^,}]+)` regex match on `series.scope` (`none` when the
scope is absent or has no match, in which case the code falls back to
"unknown"). A point value is `none` for a JSON null; the code filters those
out. An absent `pointlist` is modelled as the empty list (both fail the
`pointlist && pointlist.length > 0` guard). -/
structure DDSeries where
  resourceName : Option String
  pointlist : List (Int × Option ℚ)
deriving DecidableEq, Repr

/-- A Datadog query response body: the optional series array
(`data?.series`). -/
structure DDResponse where
  series : Option (List DDSeries)
deriving DecidableEq, Repr

/-- Ordered insertion into an ascending list: the inner step of the sorting
model. -/
def insertAsc (a : ℚ) : List ℚ → List ℚ
  | [] => [a]
  | b :: l => if a ≤ b then a :: b :: l else b :: insertAsc a l

/-- Models `[...values].sort((a, b) => a - b)`: a sort of the values into
ascending numeric order (insertion sort; only the resulting ordered sequence
is observable, so the choice of algorithm is immaterial). -/
def sortAsc (l : List ℚ) : List ℚ := l.foldr insertAsc []

/-- The per-kind aggregation of `extractByResource` (lines 163-178), applied
to the null-filtered values of one series. The p95/p99 index
`Math.floor(sorted.length * 0.95)` is modelled exactly over the rationals as
`(n * 95) / 100` in natural-number division; for nonempty input the index is
always below the length, so the unguarded array access cannot go out of
bounds. The trailing `* 1000` on the percentile branches converts seconds to
milliseconds. Rational division models the JS float division (the mean of an
empty list is never requested: the caller skips empty value lists). -/
def aggOf (aggregationType : String) (values : List ℚ) : ℚ :=
  if aggregationType == "sum" then
    values.foldl (· + ·) 0
  else if aggregationType == "p95" then
    let sorted := sortAsc values
    let index := (sorted.length * 95) / 100
    sorted.getD index 0 * 1000
  else if aggregationType == "p99" then
    let sorted := sortAsc values
    let index := (sorted.length * 99) / 100
    sorted.getD index 0 * 1000
  else if aggregationType == "rate" then
    (values.foldl (· + ·) 0) / (values.length : ℚ)
  else
    (values.foldl (· + ·) 0) / (values.length : ℚ)

/-- The body of the `forEach` in `extractByResource` for one series: append
the aggregated value under the series' resource name (JS object assignment is
modelled by prepending, so `List.lookup` sees the most recent write), or leave
the accumulator unchanged when the pointlist is empty or all of its values are
null — the `if (values.length === 0) return;` early exit. -/
def extractStep (aggregationType : String) (acc : List (String × ℚ)) (s : DDSeries) :
    List (String × ℚ) :=
  let resourceName :=
    match s.resourceName with
    | some n => n
    | none => "unknown"
  if s.pointlist.length > 0 then
    let values := (s.pointlist.map (fun p => p.2)).filterMap id
    if values.length = 0 then acc
    else (resourceName, aggOf aggregationType values) :: acc
  else acc

/-- Embeds `extractByResource` (lines 142-185). A null response or an absent
or empty series array yields the empty result (`return {}`). -/
def extractByResource (data : Option DDResponse) (aggregationType : String) :
    List (String × ℚ) :=
  match data with
  | none => []
  | some d =>
    match d.series with
    | none => []
    | some serList =>
      if serList.length = 0 then []
      else serList.foldl (extractStep aggregationType) []

/-- The endpoint-table rate computation of `fetchEndpointMetricsTable`
(fetchdatadogmetrics.js line 308):
`totalTimeSeconds > 0 ? requests / totalTimeSeconds : 0`. -/
def actualRate (requests : ℚ) (totalTimeSeconds : ℚ) : ℚ :=
  if totalTimeSeconds > 0 then requests / totalTimeSeconds else 0

/-- Payload for the severity-monotonicity analysis: one pod with 5 restarts
whose series increases inside the window, plus one endpoint with a p95 of
1500 ms. -/
def metricSlow : Metric := ⟨"GET /orders", 1000, 1500, 0, 0⟩

/-- A pod with 5 restarts. -/
def podA : PodMetric := ⟨"pod-a", 5⟩

/-- A restart series that rises from 0 to 5 at timestamp 2. -/
def seriesA : RestartSeries := ⟨some "pod-a", [(1, 0), (2, 5)]⟩

/-- Pod metrics combining `podA` with its during-window series. -/
def pmD5 : PodMetricsData := ⟨some [podA], none, some ⟨some ⟨some [seriesA], 1, 9⟩⟩, none⟩

/-- The full monotonicity-analysis payload. -/
def dC1 : ReportData := ⟨[metricSlow], none, some pmD5, none⟩

/-- A series whose only increase is recorded at timestamp exactly 0. -/
def seriesZeroTs : RestartSeries := ⟨some "pod-z", [(-10, 0), (0, 3)]⟩

/-- A pod with 3 restarts whose series is flat at 2 (before-window case). -/
def podB : PodMetric := ⟨"pod-b", 3⟩

/-- A flat series with a nonzero start value: classified as before-window. -/
def seriesB : RestartSeries := ⟨some "pod-b", [(1, 2), (2, 2)]⟩

/-- Pod metrics whose only pod has a `duringWindow = false` timing entry. -/
def pmDW : PodMetricsData := ⟨some [podB], none, some ⟨some ⟨some [seriesB], 1, 9⟩⟩, none⟩

/-- Payload whose only restarted pod is classified before-window. -/
def dC3 : ReportData := ⟨[], none, some pmDW, none⟩

/-- A single restarted pod, listed twice to probe multiplicity counting. -/
def dupPod : PodMetric := ⟨"pod-d", 1⟩

/-- A payload with no pod or error metrics at all. -/
def dEmptyR : ReportData := ⟨[], none, none, none⟩

/-- A restarted pod with 2 restarts for the high-memory scenario. -/
def podM : PodMetric := ⟨"pod-m", 2⟩

/-- A payload whose container metrics report peak memory 95% for `podM` and
whose log summary reports 10 errors. -/
def dMem : ReportData :=
  ⟨[], none, some ⟨none, none, none, some ⟨some [⟨"pod-m", 95⟩]⟩⟩, some ⟨some ⟨10, none⟩⟩⟩

/-- Pod metrics with one restarted pod and no time series at all, so the pod
has no restart-timing entry. -/
def pmNoSeries : PodMetricsData := ⟨some [⟨"pod-x", 1⟩], none, none, none⟩

/-- Summary payload on which the two `generateSummaryObservations` bodies
disagree. -/
def sdC8 : SummaryData := ⟨[], some pmNoSeries, none, none⟩

/-- A response with a single one-point series with value 2 (seconds). -/
def ddOne : DDResponse := ⟨some [⟨some "r", [(0, some 2)]⟩]⟩

/-- A response with a single series all of whose point values are null. -/
def ddNull : DDResponse := ⟨some [⟨some "r", [(0, none), (1, none)]⟩]⟩

/-- Helper: the during-window filter keeps exactly the pods of the payload's
pod list that have a positive restart count and a timing entry with
`duringWindow = true`. -/
theorem mem_podsWithRestartsOf (d : ReportData) (p : PodMetric) :
    p ∈ podsWithRestartsOf d ↔
      ∃ pm pods, d.podMetrics = some pm ∧ pm.podMetrics = some pods ∧ p ∈ pods ∧
        p.restarts > 0 ∧
        ∃ t, (restartTimingOf d).lookup p.podName = some t ∧ t.duringWindow = true := by
  cases hd : d.podMetrics with
  | none => simp [podsWithRestartsOf, hd]
  | some pm =>
    cases hp : pm.podMetrics with
    | none => simp [podsWithRestartsOf, hd, hp]
    | some pods =>
      constructor
      · intro hmem
        simp only [podsWithRestartsOf, hd, hp, List.mem_filter, Bool.and_eq_true,
          decide_eq_true_iff] at hmem
        obtain ⟨hmemp, hpos, hcond⟩ := hmem
        refine ⟨pm, pods, rfl, hp, hmemp, hpos, ?_⟩
        cases hlk : (analyzeRestartTiming pm).lookup p.podName with
        | none => rw [hlk] at hcond; simp at hcond
        | some t =>
          rw [hlk] at hcond
          simp at hcond
          refine ⟨t, ?_, hcond⟩
          simp only [restartTimingOf, hd]
          exact hlk
      · rintro ⟨pm', pods', hpm', hpods', hmemp, hpos, t, hl, htd⟩
        injection hpm' with h1
        subst h1
        rw [hp] at hpods'
        injection hpods' with h2
        subst h2
        simp only [podsWithRestartsOf, hd, hp, List.mem_filter, Bool.and_eq_true,
          decide_eq_true_iff]
        refine ⟨hmemp, hpos, ?_⟩
        simp only [restartTimingOf, hd] at hl
        simp [hl, htd]

/-- C3: the restart totals used for the restart findings and for severity
escalation count only pods whose restart classification entry has
`duringWindow = true`; a pod whose entry has `duringWindow = false` is not in
the filtered list both restart blocks aggregate over, so it contributes
nothing to the reported total, the restart findings, or the status
escalation. -/
theorem restart_totals_count_only_duringWindow (d : ReportData) (p : PodMetric) :
    (p ∈ podsWithRestartsOf d ↔
      ∃ pm pods, d.podMetrics = some pm ∧ pm.podMetrics = some pods ∧ p ∈ pods ∧
        p.restarts > 0 ∧
        ∃ t, (restartTimingOf d).lookup p.podName = some t ∧ t.duringWindow = true) ∧
    (∀ t, (restartTimingOf d).lookup p.podName = some t → t.duringWindow = false →
      p ∉ podsWithRestartsOf d) := by
  refine ⟨mem_podsWithRestartsOf d p, fun t ht hfalse hmem => ?_⟩
  obtain ⟨pm, pods, _, _, _, _, t', ht', htrue⟩ := (mem_podsWithRestartsOf d p).mp hmem
  rw [ht] at ht'
  injection ht' with h1
  subst h1
  rw [htrue] at hfalse
  exact absurd hfalse (by decide)

/-- Witness for C3 at a concrete payload: `podB` has 3 restarts but a
before-window timing entry, so it is excluded from the filtered list. -/
theorem restart_totals_count_only_duringWindow_witness :
    podB ∉ podsWithRestartsOf dC3 :=
  (restart_totals_count_only_duringWindow dC3 podB).2
    ⟨"Before 1 EST", false⟩ (by decide) (by decide)

/-- C1: the claimed fold monotonicity of `overallStatus` fails on the code.
At payload `dC1` (five during-window restarts and one endpoint with p95 above
one second) the restart step sets the status to critical, and the latency step
— whose line 995 assigns `'warning'` unconditionally instead of using the
`max` merge every other step applies — downgrades it to warning, a strictly
smaller severity rank. The final status happens to be restored to critical
only because the later restart step re-escalates from the same total. -/
theorem overallStatus_downgraded_by_latency_step :
    (stepRestartCheck dC1 initState).overallStatus = Status.critical ∧
    (stepLatency dC1 (stepRestartCheck dC1 initState)).overallStatus = Status.warning ∧
    Status.rank (stepLatency dC1 (stepRestartCheck dC1 initState)).overallStatus <
      Status.rank (stepRestartCheck dC1 initState).overallStatus ∧
    (analyzePerformanceData 0 dC1).overallStatus = Status.critical := by
  refine ⟨by decide, by decide, by decide, by decide⟩

/-- C2 counterexample: in `seriesZeroTs` an increase does occur (the scan
records the last increase at timestamp 0), so the claim requires a
`duringWindow = true` entry labelled from that timestamp; but the classifier
emits no entry at all, because the JS guard `if (latestRestartTime)` treats
the recorded timestamp 0 as falsy and the start value is 0. -/
theorem classifySeries_zero_timestamp_cex :
    (([((0 : Int), (3 : Int))]).foldl scanStep ((0 : Int), (none : Option Int))).2 = some 0 ∧
    classifySeries 0 seriesZeroTs = none := by
  refine ⟨by decide, by decide⟩

/-- C2 (amended): for a series with at least one point, with `startValue` the
first point's value and the remaining points scanned with a running maximum
initialised to `startValue`: if some later point's value exceeds the running
maximum and the timestamp recorded for the last such increase is nonzero, the
entity is classified during-window with the label formatted from that
timestamp; otherwise — no increase seen, or a last increase whose timestamp is
exactly 0, which the code's truthiness test conflates with no increase — the
entity is classified before-window when `startValue > 0` and receives no
classification entry at all when it is not. -/
theorem classifySeries_forward_pass (name : String) (start : Int) (p0 : Int × Int)
    (rest : List (Int × Int)) :
    (∀ t : Int, (rest.foldl scanStep (p0.2, none)).2 = some t → t ≠ 0 →
      classifySeries start ⟨some name, p0 :: rest⟩ =
        some (name, ⟨fmtDateTime t ++ " EST", true⟩)) ∧
    ((rest.foldl scanStep (p0.2, none)).2 = none ∨
        (rest.foldl scanStep (p0.2, none)).2 = some 0 →
      classifySeries start ⟨some name, p0 :: rest⟩ =
        if p0.2 > 0 then some (name, ⟨"Before " ++ fmtDateShort start ++ " EST", false⟩)
        else none) := by
  constructor
  · intro t ht hne
    simp only [classifySeries, ht]
    simp [hne]
  · rintro (h | h) <;> simp only [classifySeries, h] <;> simp

/-- Witness for C2 at the spec's own example series: points
(t,v) = (1,0), (5,0), (7,3), (9,3); the last increase is at timestamp 7, so
the entity is classified during-window with the label formatted from 7. -/
theorem classifySeries_forward_pass_witness :
    classifySeries 1 ⟨some "pod-w", [(1, 0), (5, 0), (7, 3), (9, 3)]⟩ =
      some ("pod-w", ⟨fmtDateTime 7 ++ " EST", true⟩) :=
  (classifySeries_forward_pass "pod-w" 1 (1, 0) [(5, 0), (7, 3), (9, 3)]).1 7
    (by decide) (by decide)

/-- C4 (amended): the five root-cause rules are evaluated in fixed priority
order and the first matching rule's message is returned; in particular a
single restarted entity with peak memory above 90% together with a positive
log-error count and total restarts above 1 gets the high-memory/OOM message
(rule 1 precedes rule 2); and when none of the first three rules matches, a
restarted-pods list with more than one entry (entries counted with
multiplicity, not by distinct pod name) yields the service-level-instability
message, else the default monitoring message. -/
theorem getMainRestartCause_priority (pods : List PodMetric) (d : ReportData) :
    (getMainRestartCause pods d = firstMatchingMessage (causeRules pods d)) ∧
    (∀ p, pods = [p] → hasHighMemoryCond pods d = true → totalLogErrorsOf d > 0 →
      totalRestartsListOf pods > 1 →
      getMainRestartCause pods d =
        "High memory usage detected - likely OOM (Out of Memory) kills") ∧
    (hasHighMemoryCond pods d = false →
      ¬(totalLogErrorsOf d > 0 ∧ totalRestartsListOf pods > 1) →
      ¬(totalRestartsListOf pods ≥ 3) →
      getMainRestartCause pods d =
        if pods.length > 1 then "Multiple pods affected - indicates service-level instability"
        else "Monitor for patterns - may be related to deployment updates or transient issues") := by
  refine ⟨?_, ?_, ?_⟩
  · simp only [getMainRestartCause, causeRules, firstMatchingMessage]
    simp
  · intro p hp hmem hlog htot
    simp [getMainRestartCause, hmem]
  · intro h1 h2 h3
    simp only [getMainRestartCause, h1, Bool.false_eq_true, if_false]
    rw [if_neg, if_neg]
    · by_cases hL : pods.length > 1 <;> simp [hL]
    · simp only [decide_eq_true_iff]
      exact h3
    · simp only [Bool.and_eq_true, decide_eq_true_iff]
      exact h2

/-- C4 counterexample: a restarted-pods list holding the same single pod
twice, with no memory data, no log errors, and total restarts 2, names only
one distinct entity, yet the code returns the service-level-instability
message of rule 4 — the claim predicts the default monitoring message for a
single distinct restarted entity. -/
theorem getMainRestartCause_distinct_cex :
    ([dupPod, dupPod].map (fun p => p.podName)).dedup = ["pod-d"] ∧
    hasHighMemoryCond [dupPod, dupPod] dEmptyR = false ∧
    ¬ (totalLogErrorsOf dEmptyR > 0) ∧
    ¬ (totalRestartsListOf [dupPod, dupPod] ≥ 3) ∧
    getMainRestartCause [dupPod, dupPod] dEmptyR =
      "Multiple pods affected - indicates service-level instability" ∧
    "Multiple pods affected - indicates service-level instability" ≠
      "Monitor for patterns - may be related to deployment updates or transient issues" := by
  refine ⟨by decide, by decide, by decide, by decide, by decide, by decide⟩

/-- Witness for C4 at the claim's own scenario: one restarted pod with peak
memory 95% and 10 log errors, total restarts 2 — rule 1 fires and the OOM
message is returned. -/
theorem getMainRestartCause_priority_witness :
    getMainRestartCause [podM] dMem =
      "High memory usage detected - likely OOM (Out of Memory) kills" :=
  (getMainRestartCause_priority [podM] dMem).2.1 podM rfl (by decide) (by decide) (by decide)

/-- Helper: inserting grows the length by one. -/
theorem length_insertAsc (a : ℚ) (l : List ℚ) :
    (insertAsc a l).length = l.length + 1 := by
  induction l with
  | nil => rfl
  | cons b l ih => by_cases h : a ≤ b <;> simp [insertAsc, h, ih]

/-- Helper: membership in an insertion. -/
theorem mem_insertAsc (x a : ℚ) (l : List ℚ) :
    x ∈ insertAsc a l ↔ x = a ∨ x ∈ l := by
  induction l with
  | nil => simp [insertAsc]
  | cons b l ih => by_cases h : a ≤ b <;> simp [insertAsc, h, ih] <;> tauto

/-- Helper: the sorting model preserves length. -/
theorem length_sortAsc (l : List ℚ) : (sortAsc l).length = l.length := by
  induction l with
  | nil => rfl
  | cons a l ih =>
    show (insertAsc a (sortAsc l)).length = l.length + 1
    rw [length_insertAsc, ih]

/-- Helper: the sorting model preserves membership. -/
theorem mem_sortAsc (x : ℚ) (l : List ℚ) : x ∈ sortAsc l ↔ x ∈ l := by
  induction l with
  | nil => simp [sortAsc]
  | cons a l ih =>
    show x ∈ insertAsc a (sortAsc l) ↔ _
    rw [mem_insertAsc, ih]
    simp

/-- Helper: insertion into a sorted list is sorted. -/
theorem sorted_insertAsc (a : ℚ) (l : List ℚ)
    (h : l.Sorted (fun x y => x ≤ y)) :
    (insertAsc a l).Sorted (fun x y => x ≤ y) := by
  induction l with
  | nil => simp [insertAsc]
  | cons b l ih =>
    rw [List.sorted_cons] at h
    by_cases hab : a ≤ b
    · simp only [insertAsc, if_pos hab]
      rw [List.sorted_cons]
      refine ⟨?_, ?_⟩
      · intro c hc
        rcases List.mem_cons.mp hc with rfl | hc
        · exact hab
        · exact le_trans hab (h.1 c hc)
      · rw [List.sorted_cons]
        exact h
    · simp only [insertAsc, if_neg hab]
      rw [List.sorted_cons]
      refine ⟨?_, ih h.2⟩
      intro c hc
      rcases (mem_insertAsc c a l).mp hc with rfl | hc
      · exact le_of_not_le hab
      · exact h.1 c hc

/-- Helper: the sorting model produces an ascending list, so it is a faithful
model of the JS numeric sort. -/
theorem sorted_sortAsc (l : List ℚ) : (sortAsc l).Sorted (fun x y => x ≤ y) := by
  induction l with
  | nil => simp [sortAsc]
  | cons a l ih => exact sorted_insertAsc a (sortAsc l) ih

/-- Helper: the p95 branch of the aggregation, as an equation. -/
theorem aggOf_p95_eq (values : List ℚ) :
    aggOf "p95" values =
      (sortAsc values).getD (((sortAsc values).length * 95) / 100) 0 * 1000 := rfl

/-- C5 counterexample: on the one-sample sequence [2] the p95 aggregation
returns 2000 (the selected element scaled by 1000 for the seconds to
milliseconds conversion), which is not present in the sample sequence and
exceeds its maximum 2. -/
theorem p95_result_not_member_cex :
    extractByResource (some ddOne) "p95" = [("r", 2000)] ∧
    (2000 : ℚ) ∉ ([2] : List ℚ) ∧ ¬ ((2000 : ℚ) ≤ 2) := by
  have h : aggOf "p95" [(2 : ℚ)] = 2000 := by
    rw [aggOf_p95_eq]
    norm_num [sortAsc, insertAsc]
  refine ⟨?_, by decide, by decide⟩
  show extractStep "p95" [] ⟨some "r", [(0, some 2)]⟩ = [("r", 2000)]
  simp [extractStep, h]

/-- C5 (amended): for every non-empty value sequence the p95 aggregation sorts
ascending and selects the element at index floor(count * 0.95), which is
always within [0, count-1] (so the clamp in the claim is a no-op), and returns
1000 times that element — the seconds-to-milliseconds conversion. The selected
element is present in the input, so the result is 1000 times a member of the
input and is at most 1000 times any upper bound (in particular, 1000 times the
maximum). -/
theorem aggOf_p95_nearest_rank (v : List ℚ) (hv : v ≠ []) :
    (v.length * 95) / 100 < v.length ∧
    ∃ x ∈ v, aggOf "p95" v = 1000 * x ∧
      ∀ M, (∀ y ∈ v, y ≤ M) → aggOf "p95" v ≤ 1000 * M := by
  have hlen : 0 < v.length := List.length_pos.mpr hv
  have hidx : (v.length * 95) / 100 < v.length := Nat.div_lt_of_lt_mul (by omega)
  refine ⟨hidx, ?_⟩
  have hslen : (sortAsc v).length = v.length := length_sortAsc v
  have hidx' : ((sortAsc v).length * 95) / 100 < (sortAsc v).length := by
    rw [hslen]; exact hidx
  have hmem : (sortAsc v).getD (((sortAsc v).length * 95) / 100) 0 ∈ v := by
    rw [List.getD_eq_getElem _ _ hidx']
    exact (mem_sortAsc _ v).mp (List.getElem_mem hidx')
  refine ⟨_, hmem, ?_, ?_⟩
  · rw [aggOf_p95_eq, mul_comm]
  · intro M hM
    rw [aggOf_p95_eq, mul_comm]
    have := hM _ hmem
    exact mul_le_mul_of_nonneg_left this (by norm_num)

/-- Witness for C5 at the sample sequence [3, 1, 2]: the instantiated amended
statement. -/
theorem aggOf_p95_nearest_rank_witness :
    (([(3 : ℚ), 1, 2] : List ℚ).length * 95) / 100 < ([(3 : ℚ), 1, 2] : List ℚ).length ∧
    ∃ x ∈ ([(3 : ℚ), 1, 2] : List ℚ), aggOf "p95" [(3 : ℚ), 1, 2] = 1000 * x ∧
      ∀ M, (∀ y ∈ ([(3 : ℚ), 1, 2] : List ℚ), y ≤ M) →
        aggOf "p95" [(3 : ℚ), 1, 2] ≤ 1000 * M :=
  aggOf_p95_nearest_rank [(3 : ℚ), 1, 2] (by decide)

/-- C6 counterexample: a series whose point values are all null. After the
null filter the sample set is empty, and the code returns normally with no
entry at all: no EmptyInputError is signalled (none exists in the code), the
computation is silently skipped, and no zero entry is produced either. -/
theorem empty_values_silently_skipped_cex :
    extractByResource (some ddNull) "p95" = [] := by
  decide

/-- C6 (amended): when a series' null-filtered value list is empty, the
per-series aggregation step leaves the accumulator unchanged — the
`if (values.length === 0) return;` early exit. No entry (in particular no zero
entry) is emitted for the series and no error is raised; the aggregation is a
total function that skips the series. -/
theorem extractStep_empty_values_skip (aggregationType : String)
    (acc : List (String × ℚ)) (s : DDSeries)
    (h : (s.pointlist.map (fun p => p.2)).filterMap id = []) :
    extractStep aggregationType acc s = acc := by
  unfold extractStep
  by_cases hl : s.pointlist.length > 0
  · simp [hl, h]
  · simp [hl]

/-- Witness for C6 at a concrete series with one null-valued point. -/
theorem extractStep_empty_values_skip_witness :
    extractStep "p95" [("keep", (7 : ℚ))] ⟨some "r", [((0 : Int), (none : Option ℚ))]⟩ =
      [("keep", (7 : ℚ))] :=
  extractStep_empty_values_skip "p95" [("keep", (7 : ℚ))]
    ⟨some "r", [((0 : Int), (none : Option ℚ))]⟩ rfl

/-- C7 counterexample: for a zero and for a negative window the rate
computation returns 0 normally; it does not fail — no InvalidWindowError
exists in the code, which is the ternary
`totalTimeSeconds > 0 ? requests / totalTimeSeconds : 0`. -/
theorem actualRate_nonpositive_window_cex :
    actualRate 5 0 = 0 ∧ actualRate 7 (-3) = 0 := by
  refine ⟨by norm_num [actualRate], by norm_num [actualRate]⟩

/-- C7 (amended): the rate computation returns totalCount / windowSeconds for
every positive window (hence 0 for a zero numerator), and returns 0 — without
signalling any error — for a zero or negative window. -/
theorem actualRate_behaviour (t w : ℚ) :
    (w > 0 → actualRate t w = t / w) ∧
    (w > 0 → actualRate 0 w = 0) ∧
    (w ≤ 0 → actualRate t w = 0) := by
  refine ⟨fun h => ?_, fun h => ?_, fun h => ?_⟩
  · simp [actualRate, h]
  · simp [actualRate, h]
  · simp [actualRate, not_lt.mpr h]

/-- Witness for C7 at concrete windows: 6 over a 3-second window is 2, and a
negative window yields 0. -/
theorem actualRate_behaviour_witness :
    actualRate 6 3 = 2 ∧ actualRate 9 (-1) = 0 := by
  constructor
  · rw [(actualRate_behaviour 6 3).1 (by norm_num)]
    norm_num
  · exact (actualRate_behaviour 9 (-1)).2.2 (by norm_num)

/-- C8: the two textually distinct bodies of `generateSummaryObservations`
disagree. On `sdC8` — one pod with 1 restart and no restart time series, hence
no restart-timing entry — the first body counts the restart as during-window
(its filter accepts a pod without a timing entry) while the second body
excludes it (its filter requires an entry), so the two definitions are not
extensionally equal. -/
theorem summaryObservations_variants_disagree :
    generateSummaryObservationsV1 sdC8 =
      ["Pod Restarts: 1 restart(s) across 1 pod(s) during monitoring window"] ∧
    generateSummaryObservationsV2 sdC8 = [] ∧
    generateSummaryObservationsV1 sdC8 ≠ generateSummaryObservationsV2 sdC8 := by
  refine ⟨by decide, by decide, by decide⟩

/-- C9: the finding generator is a pure function of the payload. The ambient
clock parameter (the only time-of-day channel available to the analysis) is
never consulted, so two runs on identical input — under arbitrarily different
clock values — produce identical findings, recommendations and overall
status. -/
theorem analyzePerformanceData_clock_independent (now1 now2 : Int) (d : ReportData) :
    analyzePerformanceData now1 d = analyzePerformanceData now2 d := rfl

/-- Helper: the throughput step either leaves the state unchanged or appends
exactly one finding. -/
theorem stepThroughput_eq (d : ReportData) (st : AnalysisState) :
    stepThroughput d st = st ∨
    ∃ f, stepThroughput d st = { st with findings := st.findings ++ [f] } := by
  unfold stepThroughput
  by_cases h1 : d.metrics.length > 0
  · by_cases h2 : d.metrics.foldl (fun s m => s + m.requests) 0 > 0
    · right
      simp only [h1, h2, if_true]
      exact ⟨_, rfl⟩
    · left
      simp [h1, h2]
  · left
    simp [h1]

/-- C10: the throughput step is purely informational. For every payload and
every intermediate state it appends at most one finding and leaves both the
overall status and the recommendations list unchanged. -/
theorem stepThroughput_frame (d : ReportData) (st : AnalysisState) :
    (stepThroughput d st).overallStatus = st.overallStatus ∧
    (stepThroughput d st).recommendations = st.recommendations ∧
    ∃ tail, (stepThroughput d st).findings = st.findings ++ tail ∧ tail.length ≤ 1 := by
  rcases stepThroughput_eq d st with h | ⟨f, h⟩
  · rw [h]
    exact ⟨rfl, rfl, [], by simp, by simp⟩
  · rw [h]
    exact ⟨rfl, rfl, [f], rfl, by simp⟩
